import Mathlib

/-!
# The `max-public-structs` rule (`rule/max_public_structs.go`)

A shallow embedding of `MaxPublicStructsRule` (its `configure`, `Apply` and `Name`
methods) and of the visitor `lintMaxPublicStructs`, followed by theorems about them.

Conventions of the embedding:

* Go's mutable receiver `r *MaxPublicStructsRule` is passed explicitly: a method returns
  the receiver's state at return together with its Go result.
* A Go `error` result is an `Option GoError` (`none` is `nil`).
* A run-time panic (here: indexing an empty string) is the `error` side of `Except Panic`.
* `int64` values are integers; the only arithmetic on them is the `current++` of the
  visitor, which counts nodes of a tree held in memory and so stays far below `2^63`.
-/

namespace MaxPublicStructs

/-! ## Data model -/

/-- A Go `string`: an immutable sequence of bytes (identifiers hold UTF-8 text). -/
abbrev GoString := List UInt8

/-- The Go string literal with the given text: its UTF-8 bytes. -/
def goBytes (s : String) : GoString := s.data.flatMap String.utf8EncodeChar

/-- A node of the syntax tree (`ast.Node`). The rule distinguishes `*ast.TypeSpec`, of which
it reads `Name.Name`, from every other node kind. `children` are the nodes `ast.Walk`
descends into from this node, in order (for a `TypeSpec`: its name identifier, its type
expression, ...). -/
inductive Node where
  | TypeSpec (Name : GoString) (children : List Node) : Node
  | other (kind : String) (children : List Node) : Node

/-- The part of `lint.File` the rule reads: the root of the parsed file. -/
structure File where
  AST : Node

/-- An element of `lint.Arguments` (`[]any`): a value together with its dynamic type. -/
inductive Arg where
  | int64 (v : Int) : Arg
  | int (v : Int) : Arg
  | string (s : String) : Arg
  | bool (b : Bool) : Arg
deriving DecidableEq, Repr

/-- The type `lint.Arguments`. -/
abbrev Arguments := List Arg

/-- The integer an argument carries, whatever its dynamic type; `none` for a value that is
not integer-valued. -/
def Arg.integerValue : Arg → Option Int
  | .int64 v => some v
  | .int v => some v
  | .string _ => none
  | .bool _ => none

/-- The `error` values of this rule: `errors.New msg`, and the argument-count error of
`checkNumberOfArguments`, which identifies the rule and the expected and actual counts. -/
inductive GoError where
  | errorsNew (msg : String) : GoError
  | argumentCount (ruleName : String) (expected actual : Nat) : GoError
deriving DecidableEq, Repr

/-- A run-time panic: `s[index]` on a string of `length` bytes with `index ≥ length`. -/
inductive Panic where
  | indexOutOfRange (index length : Nat) : Panic
deriving DecidableEq, Repr

/-- A `lint.Failure`: either the struct literal `Apply` builds (fields `Failure`, here
`message`, then `Confidence`, `Node` and `Category`), or the internal-failure diagnostic
that wraps a configuration error. -/
inductive Failure where
  | mk (message : String) (Confidence : Rat) (Node : Node) (Category : String) : Failure
  | internalFailure (err : GoError) : Failure

/-- The struct `MaxPublicStructsRule`. `configureOnce` is the `done` flag of the
`sync.Once`: `false` until the first `Do` has run. The zero value is `⟨0, false⟩`. -/
structure MaxPublicStructsRule where
  max : Int
  configureOnce : Bool
deriving DecidableEq, Repr

/-- The zero value of the struct: a rule instance on which `Apply` was never called. -/
def MaxPublicStructsRule.zero : MaxPublicStructsRule := { max := 0, configureOnce := false }

/-- The struct `lintMaxPublicStructs`. Its third field `onFailure` is the closure that
appends to the `failures` slice of `Apply`; the embedding appends in `Apply` itself. -/
structure lintMaxPublicStructs where
  current : Int
  fileAst : Node

/-! ## Helpers of the package that the rule calls -/

/-- Modelled from the spec: `checkNumberOfArguments` is defined elsewhere in package `rule`.
The spec (4.1): "exactly one argument is expected; any other count fails with an
`ArgumentCountError` identifying the rule name and expected/actual counts". -/
def checkNumberOfArguments (expected : Nat) (args : Arguments) (ruleName : String) :
    Option GoError :=
  if args.length ≠ expected then some (GoError.argumentCount ruleName expected args.length)
  else none

/-- Modelled from the spec: `newInternalFailureError` is defined elsewhere in package `rule`.
The spec (4.1, 7): a configuration failure is "surfaced as a diagnostic-level internal
failure for the file being processed": one internal-failure diagnostic carrying the error. -/
def newInternalFailureError (e : GoError) : List Failure :=
  [Failure.internalFailure e]

/-! ## Library functions the rule calls -/

/-- The function `strings.ToUpper` on a one-character string whose character is U+0000..U+00FF,
given by its code point `c`; the result is the code point of the one-character result.
It is Unicode's simple upper-case mapping: `a`..`z`, `à`..`ö` and `ø`..`þ` move down by 32,
`µ` maps to U+039C, `ÿ` maps to U+0178, every other character is unchanged. -/
def toUpperLatin1 (c : UInt8) : Nat :=
  let n := c.toNat
  if 0x61 ≤ n ∧ n ≤ 0x7A then n - 32
  else if n = 0xB5 then 0x39C
  else if (0xE0 ≤ n ∧ n ≤ 0xF6) ∨ (0xF8 ≤ n ∧ n ≤ 0xFE) then n - 32
  else if n = 0xFF then 0x178
  else n

/-! ## The rule -/

/-- The constant `defaultMaxPublicStructs`. -/
def defaultMaxPublicStructs : Int := 5

/-- The method `Name`: the rule name. -/
def MaxPublicStructsRule.Name (_r : MaxPublicStructsRule) : String := "max-public-structs"

/-- The message of the error `configure` builds with `errors.New`. -/
def invalidValueMessage : String :=
  "invalid value passed as argument number to the \"max-public-structs\" rule"

/-- The method `configure` (lines 22-39): the receiver at return and the returned error. -/
def MaxPublicStructsRule.configure (r : MaxPublicStructsRule) (arguments : Arguments) :
    MaxPublicStructsRule × Option GoError :=
  match arguments with
  | [] => ({ r with max := defaultMaxPublicStructs }, none)
  | a0 :: _ =>
    match checkNumberOfArguments 1 arguments r.Name with
    | some err => (r, some err)
    | none =>
      match a0 with
      | Arg.int64 maxStructs => ({ r with max := maxStructs }, none)
      | _ => (r, some (GoError.errorsNew invalidValueMessage))

/-- Lines 43-44 of `Apply`: `var configureErr error` and
`r.configureOnce.Do(func() { configureErr = r.configure(arguments) })`.
`Do` runs the function only if it has not run before on this instance, and marks the
`Once` done afterwards; otherwise `configureErr` keeps its initial `nil`. -/
def MaxPublicStructsRule.configureOnceDo (r : MaxPublicStructsRule) (arguments : Arguments) :
    MaxPublicStructsRule × Option GoError :=
  if r.configureOnce then (r, none)
  else
    let res := r.configure arguments
    ({ res.1 with configureOnce := true }, res.2)

/-- The method `Visit` (lines 90-100) on a node, or on `nil` (`none`): the receiver at
return, and whether the returned visitor is non-nil. -/
def lintMaxPublicStructs.Visit (w : lintMaxPublicStructs) (n : Option Node) :
    Except Panic (lintMaxPublicStructs × Bool) :=
  match n with
  | some (Node.TypeSpec name _) =>
    match name with
    | [] => Except.error (Panic.indexOutOfRange 0 0)
    | b :: _ =>
      if toUpperLatin1 b = b.toNat then Except.ok ({ w with current := w.current + 1 }, true)
      else Except.ok (w, true)
  | _ => Except.ok (w, true)

mutual
/-- The function `ast.Walk` with this visitor: visit the node; if the returned visitor is
nil stop; otherwise walk the children in order with it, then call `Visit(nil)`. -/
def Walk (v : lintMaxPublicStructs) (node : Node) : Except Panic lintMaxPublicStructs :=
  match node with
  | Node.TypeSpec name cs =>
    match v.Visit (some (Node.TypeSpec name cs)) with
    | Except.error p => Except.error p
    | Except.ok (v1, false) => Except.ok v1
    | Except.ok (v1, true) =>
      match walkList v1 cs with
      | Except.error p => Except.error p
      | Except.ok v2 => (v2.Visit none).map Prod.fst
  | Node.other kind cs =>
    match v.Visit (some (Node.other kind cs)) with
    | Except.error p => Except.error p
    | Except.ok (v1, false) => Except.ok v1
    | Except.ok (v1, true) =>
      match walkList v1 cs with
      | Except.error p => Except.error p
      | Except.ok v2 => (v2.Visit none).map Prod.fst
/-- Walking a list of children in order, as `ast.Walk` does for each child list. -/
def walkList (v : lintMaxPublicStructs) (nodes : List Node) :
    Except Panic lintMaxPublicStructs :=
  match nodes with
  | [] => Except.ok v
  | n :: ns =>
    match Walk v n with
    | Except.error p => Except.error p
    | Except.ok v1 => walkList v1 ns
end

/-- The message of the diagnostic: `fmt.Sprintf` with `%d` of the threshold. -/
def exceededMessage (max : Int) : String :=
  "you have exceeded the maximum number (" ++ toString max ++
    ") of public struct declarations"

/-- What one call of `Apply` leaves behind: the receiver at return, the walker at return
(`none` when `Apply` returned before creating it) and the returned slice. -/
structure ApplyTrace where
  rule : MaxPublicStructsRule
  walker : Option lintMaxPublicStructs
  failures : List Failure

/-- The method `Apply` (lines 42-77), keeping the walker for inspection. -/
def MaxPublicStructsRule.applyTrace (r : MaxPublicStructsRule) (file : File)
    (arguments : Arguments) : Except Panic ApplyTrace :=
  let res := r.configureOnceDo arguments
  let r1 := res.1
  match res.2 with
  | some configureErr => Except.ok ⟨r1, none, newInternalFailureError configureErr⟩
  | none =>
    let failures : List Failure := []
    if r1.max < 1 then Except.ok ⟨r1, none, failures⟩
    else
      let fileAst := file.AST
      match Walk { current := 0, fileAst := fileAst } fileAst with
      | Except.error p => Except.error p
      | Except.ok walker =>
        if walker.current > r1.max then
          Except.ok ⟨r1, some walker,
            failures ++ [Failure.mk (exceededMessage r1.max) 1 fileAst "style"]⟩
        else Except.ok ⟨r1, some walker, failures⟩

/-- The method `Apply`: the receiver at return and the returned diagnostics. -/
def MaxPublicStructsRule.Apply (r : MaxPublicStructsRule) (file : File)
    (arguments : Arguments) : Except Panic (MaxPublicStructsRule × List Failure) :=
  (r.applyTrace file arguments).map fun t => (t.rule, t.failures)

/-- A sequence of `Apply` calls on one instance, each with its file and arguments: the
instance after the last call and the diagnostics of every call, in order. -/
def applySeq (r : MaxPublicStructsRule) (calls : List (File × Arguments)) :
    Except Panic (MaxPublicStructsRule × List (List Failure)) :=
  match calls with
  | [] => Except.ok (r, [])
  | c :: cs =>
    match r.Apply c.1 c.2 with
    | Except.error p => Except.error p
    | Except.ok (r1, out) =>
      match applySeq r1 cs with
      | Except.error p => Except.error p
      | Except.ok (r2, outs) => Except.ok (r2, out :: outs)

/-- How many of the calls of a sequence execute the body of `configureOnce.Do`, that is,
run `configure`: a call does so exactly when it finds the `Once` not yet done. -/
def configureRuns (r : MaxPublicStructsRule) (calls : List (File × Arguments)) : Nat :=
  match calls with
  | [] => 0
  | c :: cs =>
    (if r.configureOnce then 0 else 1) + configureRuns (r.configureOnceDo c.2).1 cs

/-! ## Specification-level notions -/

/-- The classification `Visit` applies to a declared name: the one-character string made
of its first byte is unchanged by upper-casing. An empty name has no classification. -/
def classifiedPublic (name : GoString) : Bool :=
  match name with
  | [] => false
  | b :: _ => toUpperLatin1 b = b.toNat

mutual
/-- Every type declaration of the tree has a non-empty name. -/
def namesNonEmpty : Node → Bool
  | Node.TypeSpec name cs => !name.isEmpty && namesNonEmptyList cs
  | Node.other _ cs => namesNonEmptyList cs
/-- Every type declaration of the trees of a list has a non-empty name. -/
def namesNonEmptyList : List Node → Bool
  | [] => true
  | n :: ns => namesNonEmpty n && namesNonEmptyList ns
end

mutual
/-- The number of type-declaration nodes of the tree, at any depth, whose name is
classified publicly visible. -/
def countPublic : Node → Nat
  | Node.TypeSpec name cs => (if classifiedPublic name then 1 else 0) + countPublicList cs
  | Node.other _ cs => countPublicList cs
/-- The number of publicly classified type declarations in a list of trees. -/
def countPublicList : List Node → Nat
  | [] => 0
  | n :: ns => countPublic n + countPublicList ns
end

/-- The diagnostic `Apply` emits for threshold `t` on the tree `root`. -/
def thresholdFailure (t : Int) (root : Node) : Failure :=
  Failure.mk (exceededMessage t) 1 root "style"

/-- What a threshold `t` alone prescribes for the tree `root`: nothing when `t` is below 1,
the one threshold diagnostic citing `t` when more than `t` type declarations of the tree are
classified publicly visible, nothing otherwise. -/
def diagnosticsFor (t : Int) (root : Node) : List Failure :=
  if t < 1 then []
  else if t < (countPublic root : Int) then [thresholdFailure t root]
  else []

/-! ## Sample inputs -/

/-- A type declaration `type <name> struct{}`: the `TypeSpec` with its identifier and its
struct type (whose field list is empty). -/
def structDecl (name : String) : Node :=
  Node.TypeSpec (goBytes name)
    [Node.other "Ident" [], Node.other "StructType" [Node.other "FieldList" []]]

/-- A file whose declarations are the struct types with the given names, each in its own
`type` declaration. -/
def fileOf (names : List String) : File :=
  { AST := Node.other "File"
      (Node.other "Ident" [] :: names.map fun n => Node.other "GenDecl" [structDecl n]) }

/-- A type declaration `type <name> <typeExpr>`: the `TypeSpec` with its identifier and the
node of the type it defines. -/
def typeDecl (name : String) (typeExpr : Node) : Node :=
  Node.TypeSpec (goBytes name) [Node.other "Ident" [], typeExpr]

/-- A file with the given top-level declarations. -/
def fileOfDecls (decls : List Node) : File :=
  { AST := Node.other "File" (Node.other "Ident" [] :: decls) }

/-- A function declaration `func f() { type <name> struct{} }`: the type is declared inside
the function body. -/
def funcWithLocalStruct (name : String) : Node :=
  Node.other "FuncDecl"
    [Node.other "Ident" [], Node.other "FuncType" [Node.other "FieldList" []],
      Node.other "BlockStmt" [Node.other "DeclStmt" [Node.other "GenDecl" [structDecl name]]]]

/-! ## Nodes of a tree -/

mutual
/-- Every node of the tree, at every depth, in the order `ast.Walk` reaches them. -/
def allNodes : Node → List Node
  | Node.TypeSpec name cs => Node.TypeSpec name cs :: allNodesList cs
  | Node.other kind cs => Node.other kind cs :: allNodesList cs
/-- Every node of the trees of a list, in order. -/
def allNodesList : List Node → List Node
  | [] => []
  | n :: ns => allNodes n ++ allNodesList ns
end

/-- The node is a type declaration whose name is classified publicly visible. -/
def isPublicTypeSpec : Node → Bool
  | Node.TypeSpec name _ => classifiedPublic name
  | Node.other _ _ => false

/-! ## Lemmas on the visitor and the walk -/

theorem Visit_nil (w : lintMaxPublicStructs) : w.Visit none = Except.ok (w, true) := rfl

theorem Visit_other (w : lintMaxPublicStructs) (kind : String) (cs : List Node) :
    w.Visit (some (Node.other kind cs)) = Except.ok (w, true) := rfl

theorem Visit_TypeSpec (w : lintMaxPublicStructs) (name : GoString) (cs : List Node)
    (h : name.isEmpty = false) :
    w.Visit (some (Node.TypeSpec name cs)) =
      Except.ok ({ w with current := w.current + (if classifiedPublic name then 1 else 0) },
        true) := by
  cases name with
  | nil => simp at h
  | cons b bs =>
    by_cases hb : toUpperLatin1 b = b.toNat
    · simp [lintMaxPublicStructs.Visit, classifiedPublic, hb]
    · simp [lintMaxPublicStructs.Visit, classifiedPublic, hb]

mutual
/-- On a tree whose type declarations all have a name, the walk returns, and it has added
to `current` the number of publicly classified type declarations of the tree. -/
theorem Walk_eq : ∀ (node : Node) (v : lintMaxPublicStructs), namesNonEmpty node = true →
    Walk v node = Except.ok { v with current := v.current + (countPublic node : Int) }
  | Node.TypeSpec name cs, v, h => by
    simp only [namesNonEmpty, Bool.and_eq_true, Bool.not_eq_true'] at h
    rw [Walk, Visit_TypeSpec v name cs h.1]
    simp only []
    rw [walkList_eq cs _ h.2]
    simp only [Visit_nil, Except.map, countPublic]
    congr 2
    split <;> push_cast <;> ring
  | Node.other kind cs, v, h => by
    simp only [namesNonEmpty] at h
    rw [Walk, Visit_other]
    simp only []
    rw [walkList_eq cs _ h]
    simp only [Visit_nil, Except.map, countPublic]
theorem walkList_eq : ∀ (nodes : List Node) (v : lintMaxPublicStructs),
    namesNonEmptyList nodes = true →
    walkList v nodes = Except.ok { v with current := v.current + (countPublicList nodes : Int) }
  | [], v, _ => by
    simp [walkList, countPublicList]
  | n :: ns, v, h => by
    simp only [namesNonEmptyList, Bool.and_eq_true] at h
    rw [walkList, Walk_eq n v h.1]
    simp only []
    rw [walkList_eq ns _ h.2]
    simp only [countPublicList]
    congr 2
    push_cast
    ring
end

/-! ## Lemmas on `Apply` -/

theorem configureOnceDo_done (r : MaxPublicStructsRule) (arguments : Arguments)
    (h : r.configureOnce = true) : r.configureOnceDo arguments = (r, none) := by
  simp [MaxPublicStructsRule.configureOnceDo, h]

theorem configureOnceDo_first (r : MaxPublicStructsRule) (arguments : Arguments)
    (h : r.configureOnce = false) :
    r.configureOnceDo arguments =
      ({ (r.configure arguments).1 with configureOnce := true }, (r.configure arguments).2) := by
  simp [MaxPublicStructsRule.configureOnceDo, h]

theorem configureOnceDo_marks (r : MaxPublicStructsRule) (arguments : Arguments) :
    (r.configureOnceDo arguments).1.configureOnce = true := by
  cases h : r.configureOnce
  · rw [configureOnceDo_first r arguments h]
  · rw [configureOnceDo_done r arguments h]; exact h

/-- A configuration error ends `Apply` before the threshold test and the walk. -/
theorem applyTrace_configErr (r : MaxPublicStructsRule) (file : File) (arguments : Arguments)
    (err : GoError) (h : (r.configureOnceDo arguments).2 = some err) :
    r.applyTrace file arguments =
      Except.ok ⟨(r.configureOnceDo arguments).1, none, [Failure.internalFailure err]⟩ := by
  simp [MaxPublicStructsRule.applyTrace, h, newInternalFailureError]

/-- A threshold below 1 ends `Apply` before the walk. -/
theorem applyTrace_disabled (r : MaxPublicStructsRule) (file : File) (arguments : Arguments)
    (h : (r.configureOnceDo arguments).2 = none)
    (hlt : (r.configureOnceDo arguments).1.max < 1) :
    r.applyTrace file arguments = Except.ok ⟨(r.configureOnceDo arguments).1, none, []⟩ := by
  simp [MaxPublicStructsRule.applyTrace, h, hlt]

/-- With a threshold of at least 1, `Apply` walks the tree from a count of zero and compares
the count with the threshold. -/
theorem applyTrace_enabled (r : MaxPublicStructsRule) (file : File) (arguments : Arguments)
    (h : (r.configureOnceDo arguments).2 = none)
    (hge : 1 ≤ (r.configureOnceDo arguments).1.max)
    (hwf : namesNonEmpty file.AST = true) :
    r.applyTrace file arguments =
      Except.ok ⟨(r.configureOnceDo arguments).1,
        some { current := (countPublic file.AST : Int), fileAst := file.AST },
        if (r.configureOnceDo arguments).1.max < (countPublic file.AST : Int) then
          [thresholdFailure (r.configureOnceDo arguments).1.max file.AST]
        else []⟩ := by
  have hnlt : ¬ (r.configureOnceDo arguments).1.max < 1 := not_lt.mpr hge
  simp only [MaxPublicStructsRule.applyTrace, h, hnlt, if_false, Walk_eq file.AST _ hwf,
    zero_add, gt_iff_lt, List.nil_append, thresholdFailure]
  split <;> rfl

theorem Apply_eq (r : MaxPublicStructsRule) (file : File) (arguments : Arguments)
    (t : ApplyTrace) (h : r.applyTrace file arguments = Except.ok t) :
    r.Apply file arguments = Except.ok (t.rule, t.failures) := by
  simp [MaxPublicStructsRule.Apply, h, Except.map]

/-- On a well-formed tree `Apply` returns, whatever the instance and the arguments. -/
theorem applyTrace_returns (r : MaxPublicStructsRule) (file : File) (arguments : Arguments)
    (hwf : namesNonEmpty file.AST = true) :
    ∃ t, r.applyTrace file arguments = Except.ok t ∧
      t.rule = (r.configureOnceDo arguments).1 := by
  cases h : (r.configureOnceDo arguments).2 with
  | some err => exact ⟨_, applyTrace_configErr r file arguments err h, rfl⟩
  | none =>
    by_cases hlt : (r.configureOnceDo arguments).1.max < 1
    · exact ⟨_, applyTrace_disabled r file arguments h hlt, rfl⟩
    · exact ⟨_, applyTrace_enabled r file arguments h (not_lt.mp hlt) hwf, rfl⟩

/-- Calls on a configured instance leave it unchanged; on well-formed trees every call of
the sequence returns. -/
theorem applySeq_configured : ∀ (calls : List (File × Arguments)) (r : MaxPublicStructsRule),
    r.configureOnce = true →
    calls.all (fun c => namesNonEmpty c.1.AST) = true →
    ∃ outs, applySeq r calls = Except.ok (r, outs) ∧ outs.length = calls.length
  | [], r, _, _ => ⟨[], rfl, rfl⟩
  | c :: cs, r, hdone, hwf => by
    simp only [List.all_cons, Bool.and_eq_true] at hwf
    obtain ⟨t, ht, hrule⟩ := applyTrace_returns r c.1 c.2 hwf.1
    rw [configureOnceDo_done r c.2 hdone] at hrule
    obtain ⟨outs, houts, hlen⟩ := applySeq_configured cs r hdone hwf.2
    refine ⟨t.failures :: outs, ?_, by simp [hlen]⟩
    rw [applySeq, Apply_eq r c.1 c.2 t ht, hrule]
    simp only []
    rw [houts]

theorem configureRuns_configured : ∀ (calls : List (File × Arguments))
    (r : MaxPublicStructsRule), r.configureOnce = true → configureRuns r calls = 0
  | [], _, _ => rfl
  | c :: cs, r, hdone => by
    rw [configureRuns, configureOnceDo_done r c.2 hdone, configureRuns_configured cs r hdone]
    simp [hdone]

/-- The three ways `Apply` returns: with the internal-failure diagnostic of a configuration
error, with no diagnostic, or (threshold at least 1) with the one threshold diagnostic. -/
theorem applyTrace_failures (r : MaxPublicStructsRule) (file : File) (arguments : Arguments)
    (tr : ApplyTrace) (h : r.applyTrace file arguments = Except.ok tr) :
    tr.rule = (r.configureOnceDo arguments).1 ∧
      ((∃ err, (r.configureOnceDo arguments).2 = some err ∧
          tr.failures = [Failure.internalFailure err]) ∨
        tr.failures = [] ∨
        (1 ≤ tr.rule.max ∧ tr.failures = [thresholdFailure tr.rule.max file.AST])) := by
  cases hc : (r.configureOnceDo arguments).2 with
  | some err =>
    rw [applyTrace_configErr r file arguments err hc] at h
    cases h
    exact ⟨rfl, Or.inl ⟨err, rfl, rfl⟩⟩
  | none =>
    by_cases hlt : (r.configureOnceDo arguments).1.max < 1
    · rw [applyTrace_disabled r file arguments hc hlt] at h
      cases h
      exact ⟨rfl, Or.inr (Or.inl rfl)⟩
    · simp only [MaxPublicStructsRule.applyTrace, hc, hlt, if_false] at h
      cases hw : Walk { current := 0, fileAst := file.AST } file.AST with
      | error p => simp [hw] at h
      | ok w =>
        simp only [hw] at h
        by_cases hgt : w.current > (r.configureOnceDo arguments).1.max
        · simp only [hgt, if_true, List.nil_append] at h
          cases h
          exact ⟨rfl, Or.inr (Or.inr ⟨not_lt.mp hlt, rfl⟩)⟩
        · simp only [hgt, if_false] at h
          cases h
          exact ⟨rfl, Or.inr (Or.inl rfl)⟩

theorem Apply_ok_iff (r : MaxPublicStructsRule) (file : File) (arguments : Arguments)
    (r1 : MaxPublicStructsRule) (out : List Failure)
    (h : r.Apply file arguments = Except.ok (r1, out)) :
    ∃ tr, r.applyTrace file arguments = Except.ok tr ∧ tr.rule = r1 ∧ tr.failures = out := by
  cases ht : r.applyTrace file arguments with
  | error p => simp [MaxPublicStructsRule.Apply, ht, Except.map] at h
  | ok tr =>
    simp only [MaxPublicStructsRule.Apply, ht, Except.map, Except.ok.injEq, Prod.mk.injEq] at h
    exact ⟨tr, rfl, h.1, h.2⟩

/-- The message renders a threshold of at least 1 as its decimal digits. -/
theorem exceededMessage_decimal (t : Int) (h : 1 ≤ t) :
    exceededMessage t =
      "you have exceeded the maximum number (" ++ Nat.repr t.toNat ++
        ") of public struct declarations" := by
  cases t with
  | ofNat m => rfl
  | negSucc m =>
    have := Int.negSucc_lt_zero m
    omega

/-- Every way `Visit` returns, it returns the visitor, never nil. -/
theorem Visit_returns_visitor (w : lintMaxPublicStructs) (n : Option Node)
    (w1 : lintMaxPublicStructs) (b : Bool) (h : w.Visit n = Except.ok (w1, b)) : b = true := by
  unfold lintMaxPublicStructs.Visit at h
  split at h
  · split at h
    · simp at h
    · split at h <;> simp at h <;> exact h.2
  · simp at h
    exact h.2

mutual
theorem countPublic_eq_filter : ∀ node : Node,
    countPublic node = ((allNodes node).filter isPublicTypeSpec).length
  | Node.TypeSpec name cs => by
    rw [countPublic, allNodes, List.filter_cons, countPublicList_eq_filter cs]
    cases hp : classifiedPublic name <;> simp [isPublicTypeSpec, hp, Nat.add_comm]
  | Node.other kind cs => by
    rw [countPublic, allNodes, List.filter_cons, countPublicList_eq_filter cs]
    simp [isPublicTypeSpec]
theorem countPublicList_eq_filter : ∀ nodes : List Node,
    countPublicList nodes = ((allNodesList nodes).filter isPublicTypeSpec).length
  | [] => rfl
  | n :: ns => by
    rw [countPublicList, allNodesList, List.filter_append, List.length_append,
      countPublic_eq_filter n, countPublicList_eq_filter ns]
end

mutual
/-- A type declaration with an empty name anywhere in the tree makes the walk panic. -/
theorem Walk_fault : ∀ (node : Node) (v : lintMaxPublicStructs), namesNonEmpty node = false →
    Walk v node = Except.error (Panic.indexOutOfRange 0 0)
  | Node.TypeSpec name cs, v, h => by
    cases hn : name.isEmpty with
    | true =>
      have : name = [] := List.isEmpty_iff.mp hn
      subst this
      simp [Walk, lintMaxPublicStructs.Visit]
    | false =>
      have hcs : namesNonEmptyList cs = false := by
        simpa [namesNonEmpty, hn] using h
      rw [Walk, Visit_TypeSpec v name cs hn]
      simp only []
      rw [walkList_fault cs _ hcs]
  | Node.other kind cs, v, h => by
    have hcs : namesNonEmptyList cs = false := by
      simpa [namesNonEmpty] using h
    rw [Walk, Visit_other]
    simp only []
    rw [walkList_fault cs _ hcs]
theorem walkList_fault : ∀ (nodes : List Node) (v : lintMaxPublicStructs),
    namesNonEmptyList nodes = false →
    walkList v nodes = Except.error (Panic.indexOutOfRange 0 0)
  | [], v, h => by simp [namesNonEmptyList] at h
  | n :: ns, v, h => by
    cases hn : namesNonEmpty n with
    | false => rw [walkList, Walk_fault n v hn]
    | true =>
      have hns : namesNonEmptyList ns = false := by
        simpa [namesNonEmptyList, hn] using h
      rw [walkList, Walk_eq n v hn]
      simp only []
      rw [walkList_fault ns _ hns]
end

/-- The method `configure` writes the threshold only when it succeeds. -/
theorem configure_error_unchanged (r : MaxPublicStructsRule) (arguments : Arguments)
    (err : GoError) (h : (r.configure arguments).2 = some err) :
    (r.configure arguments).1 = r := by
  cases arguments with
  | nil => simp [MaxPublicStructsRule.configure] at h
  | cons a0 rest =>
    cases hck : checkNumberOfArguments 1 (a0 :: rest) r.Name with
    | some e => simp [MaxPublicStructsRule.configure, hck]
    | none =>
      cases a0 with
      | int64 v => simp [MaxPublicStructsRule.configure, hck] at h
      | int v => simp [MaxPublicStructsRule.configure, hck]
      | string v => simp [MaxPublicStructsRule.configure, hck]
      | bool v => simp [MaxPublicStructsRule.configure, hck]

/-- On a configured instance `Apply` reports against the stored threshold and nothing else:
its arguments play no part. -/
theorem Apply_configured (r : MaxPublicStructsRule) (file : File) (arguments : Arguments)
    (hdone : r.configureOnce = true) (hwf : namesNonEmpty file.AST = true) :
    r.Apply file arguments = Except.ok (r, diagnosticsFor r.max file.AST) := by
  have hd := configureOnceDo_done r arguments hdone
  by_cases hlt : r.max < 1
  · have h := applyTrace_disabled r file arguments (by rw [hd]) (by rw [hd]; exact hlt)
    rw [Apply_eq r file arguments _ h, hd]
    simp [diagnosticsFor, hlt]
  · have h := applyTrace_enabled r file arguments (by rw [hd])
      (by rw [hd]; exact not_lt.mp hlt) hwf
    rw [Apply_eq r file arguments _ h, hd]
    simp only [diagnosticsFor, hlt, if_false]

/-- A sequence of calls on a configured instance: every call reports against the stored
threshold, whatever its arguments. -/
theorem applySeq_configured_outputs : ∀ (calls : List (File × Arguments))
    (r : MaxPublicStructsRule), r.configureOnce = true →
    calls.all (fun c => namesNonEmpty c.1.AST) = true →
    applySeq r calls = Except.ok (r, calls.map fun c => diagnosticsFor r.max c.1.AST)
  | [], r, _, _ => rfl
  | c :: cs, r, hdone, hwf => by
    simp only [List.all_cons, Bool.and_eq_true] at hwf
    rw [applySeq, Apply_configured r c.1 c.2 hdone hwf.1]
    simp only []
    rw [applySeq_configured_outputs cs r hdone hwf.2]
    rfl

/-- On a configured instance two calls on the same file with different arguments do the
same: `configure`, the only reader of the arguments, is not run. -/
theorem applyTrace_configured_ignores_arguments (r : MaxPublicStructsRule) (file : File)
    (a b : Arguments) (hdone : r.configureOnce = true) :
    r.applyTrace file a = r.applyTrace file b := by
  simp only [MaxPublicStructsRule.applyTrace, configureOnceDo_done r a hdone,
    configureOnceDo_done r b hdone]

/-! ## Threshold comparison and configuration -/

/-- C1: when the first configuration of an instance `r0` (from arguments `args0`) succeeds
and resolves a threshold `t ≥ 1`, then on every tree whose type declarations all have a
non-empty name and of which exactly `n` are classified publicly visible, the configuring
call of `Apply` and every later call (whatever its arguments) return exactly the one
threshold diagnostic when `n > t` and the empty list when `n ≤ t`. -/
theorem apply_one_diagnostic_iff_over_threshold (r0 : MaxPublicStructsRule)
    (args0 : Arguments) (t : Int) (file : File) (n : Nat)
    (hfresh : r0.configureOnce = false)
    (hcfg : (r0.configure args0).2 = none)
    (ht : (r0.configure args0).1.max = t) (h1 : 1 ≤ t)
    (hwf : namesNonEmpty file.AST = true) (hn : countPublic file.AST = n) :
    r0.Apply file args0 =
        Except.ok ((r0.configureOnceDo args0).1,
          if t < (n : Int) then [thresholdFailure t file.AST] else []) ∧
      ∀ arguments : Arguments,
        (r0.configureOnceDo args0).1.Apply file arguments =
          Except.ok ((r0.configureOnceDo args0).1,
            if t < (n : Int) then [thresholdFailure t file.AST] else []) := by
  have hdo := configureOnceDo_first r0 args0 hfresh
  have h2 : (r0.configureOnceDo args0).2 = none := by rw [hdo]; exact hcfg
  have hmax : (r0.configureOnceDo args0).1.max = t := by rw [hdo]; exact ht
  have hdone := configureOnceDo_marks r0 args0
  constructor
  · have h := applyTrace_enabled r0 file args0 h2 (by rw [hmax]; exact h1) hwf
    rw [Apply_eq r0 file args0 _ h, hmax, hn]
  · intro arguments
    have hd := configureOnceDo_done (r0.configureOnceDo args0).1 arguments hdone
    have h := applyTrace_enabled (r0.configureOnceDo args0).1 file arguments
      (by rw [hd]) (by rw [hd, hmax]; exact h1) hwf
    rw [Apply_eq _ file arguments _ h, hd, hmax, hn]

/-- Witness for C1: default-free configuration `[3]`, a file with four public and one
non-public struct: one diagnostic, on the first call and on a later one. -/
theorem apply_one_diagnostic_iff_over_threshold_witness :
    MaxPublicStructsRule.zero.Apply (fileOf ["A", "b", "C", "D", "E"]) [Arg.int64 3] =
        Except.ok ((MaxPublicStructsRule.zero.configureOnceDo [Arg.int64 3]).1,
          if (3 : Int) < ((4 : Nat) : Int) then
            [thresholdFailure 3 (fileOf ["A", "b", "C", "D", "E"]).AST]
          else []) ∧
      ∀ arguments : Arguments,
        (MaxPublicStructsRule.zero.configureOnceDo [Arg.int64 3]).1.Apply
            (fileOf ["A", "b", "C", "D", "E"]) arguments =
          Except.ok ((MaxPublicStructsRule.zero.configureOnceDo [Arg.int64 3]).1,
            if (3 : Int) < ((4 : Nat) : Int) then
              [thresholdFailure 3 (fileOf ["A", "b", "C", "D", "E"]).AST]
            else []) :=
  apply_one_diagnostic_iff_over_threshold MaxPublicStructsRule.zero [Arg.int64 3] 3
    (fileOf ["A", "b", "C", "D", "E"]) 4 rfl rfl rfl (by decide) rfl rfl

/-- C2: for every integer `k < 1` passed (as an `int64`) as the single argument of the first
call, `Apply` returns the empty list on every tree, also on one whose walk would fault: the
walk is not started, and no error is reported. -/
theorem apply_disabled_below_one (r : MaxPublicStructsRule) (k : Int) (file : File)
    (hfresh : r.configureOnce = false) (hk : k < 1) :
    r.applyTrace file [Arg.int64 k] =
        Except.ok ⟨{ max := k, configureOnce := true }, none, []⟩ ∧
      r.Apply file [Arg.int64 k] = Except.ok ({ max := k, configureOnce := true }, []) := by
  have hdo : r.configureOnceDo [Arg.int64 k] = ({ max := k, configureOnce := true }, none) := by
    rw [configureOnceDo_first r _ hfresh]
    simp [MaxPublicStructsRule.configure, checkNumberOfArguments]
  have h := applyTrace_disabled r file [Arg.int64 k] (by rw [hdo]) (by rw [hdo]; exact hk)
  rw [hdo] at h
  exact ⟨h, by rw [Apply_eq r file _ _ h]⟩

/-- Witness for C2: the argument `[0]` on a file of six public structs and one declaration
with an empty name. -/
theorem apply_disabled_below_one_witness :
    MaxPublicStructsRule.zero.applyTrace (fileOf ["A", "B", "C", "D", "E", "F", ""])
          [Arg.int64 0] =
        Except.ok ⟨{ max := 0, configureOnce := true }, none, []⟩ ∧
      MaxPublicStructsRule.zero.Apply (fileOf ["A", "B", "C", "D", "E", "F", ""])
          [Arg.int64 0] =
        Except.ok ({ max := 0, configureOnce := true }, []) :=
  apply_disabled_below_one MaxPublicStructsRule.zero 0
    (fileOf ["A", "B", "C", "D", "E", "F", ""]) rfl (by decide)

/-- C3: for every argument list of length at least 2 given to the first call, `configure`
fails with the argument-count error that carries the rule name, the expected count 1 and
the actual count, and leaves the instance as it was; `Apply` does not start the walk (its
result is the same on every tree) and returns the internal-failure diagnostic of that
error and nothing else, so no threshold diagnostic. -/
theorem apply_argument_count_error (r : MaxPublicStructsRule) (arguments : Arguments)
    (file : File) (hfresh : r.configureOnce = false) (hlen : 2 ≤ arguments.length) :
    r.configure arguments =
        (r, some (GoError.argumentCount r.Name 1 arguments.length)) ∧
      r.Name = "max-public-structs" ∧
      r.applyTrace file arguments =
        Except.ok ⟨{ r with configureOnce := true }, none,
          [Failure.internalFailure (GoError.argumentCount r.Name 1 arguments.length)]⟩ ∧
      r.Apply file arguments =
        Except.ok ({ r with configureOnce := true },
          [Failure.internalFailure (GoError.argumentCount r.Name 1 arguments.length)]) ∧
      ∀ (t : Int) (root : Node),
        thresholdFailure t root ∉
          [Failure.internalFailure (GoError.argumentCount r.Name 1 arguments.length)] := by
  have hc : r.configure arguments =
      (r, some (GoError.argumentCount r.Name 1 arguments.length)) := by
    cases arguments with
    | nil => simp at hlen
    | cons a0 rest =>
      have hne : rest.length + 1 ≠ 1 := by
        simp only [List.length_cons] at hlen
        omega
      simp [MaxPublicStructsRule.configure, checkNumberOfArguments, hne]
  have hdo := configureOnceDo_first r arguments hfresh
  rw [hc] at hdo
  have h := applyTrace_configErr r file arguments _ (by rw [hdo])
  rw [hdo] at h
  refine ⟨hc, rfl, h, by rw [Apply_eq r file _ _ h], ?_⟩
  intro t root hmem
  simp [thresholdFailure] at hmem

/-- Witness for C3: the arguments `[1, 2]`. -/
theorem apply_argument_count_error_witness :
    MaxPublicStructsRule.zero.configure [Arg.int64 1, Arg.int64 2] =
        (MaxPublicStructsRule.zero,
          some (GoError.argumentCount MaxPublicStructsRule.zero.Name 1 2)) ∧
      MaxPublicStructsRule.zero.Name = "max-public-structs" ∧
      MaxPublicStructsRule.zero.applyTrace (fileOf ["A", "B"]) [Arg.int64 1, Arg.int64 2] =
        Except.ok ⟨{ MaxPublicStructsRule.zero with configureOnce := true }, none,
          [Failure.internalFailure
            (GoError.argumentCount MaxPublicStructsRule.zero.Name 1 2)]⟩ ∧
      MaxPublicStructsRule.zero.Apply (fileOf ["A", "B"]) [Arg.int64 1, Arg.int64 2] =
        Except.ok ({ MaxPublicStructsRule.zero with configureOnce := true },
          [Failure.internalFailure
            (GoError.argumentCount MaxPublicStructsRule.zero.Name 1 2)]) ∧
      ∀ (t : Int) (root : Node),
        thresholdFailure t root ∉
          [Failure.internalFailure
            (GoError.argumentCount MaxPublicStructsRule.zero.Name 1 2)] :=
  apply_argument_count_error MaxPublicStructsRule.zero [Arg.int64 1, Arg.int64 2]
    (fileOf ["A", "B"]) rfl (by decide)

/-- C4: for every single argument that is not integer-valued, given to the first call,
`configure` fails with the error whose message is the invalid-value message, which contains
the rule name as `Name` returns it; `Apply` does not start the walk (its result is the same
on every tree) and returns the internal-failure diagnostic of that error and nothing
else, so no threshold diagnostic. -/
theorem apply_invalid_argument_type (r : MaxPublicStructsRule) (a : Arg) (file : File)
    (hfresh : r.configureOnce = false) (ha : a.integerValue = none) :
    r.configure [a] = (r, some (GoError.errorsNew invalidValueMessage)) ∧
      (∃ before after : String, invalidValueMessage = before ++ r.Name ++ after) ∧
      r.applyTrace file [a] =
        Except.ok ⟨{ r with configureOnce := true }, none,
          [Failure.internalFailure (GoError.errorsNew invalidValueMessage)]⟩ ∧
      r.Apply file [a] =
        Except.ok ({ r with configureOnce := true },
          [Failure.internalFailure (GoError.errorsNew invalidValueMessage)]) ∧
      ∀ (t : Int) (root : Node),
        thresholdFailure t root ∉
          [Failure.internalFailure (GoError.errorsNew invalidValueMessage)] := by
  have hc : r.configure [a] = (r, some (GoError.errorsNew invalidValueMessage)) := by
    cases a with
    | int64 v => simp [Arg.integerValue] at ha
    | int v => simp [Arg.integerValue] at ha
    | string s => simp [MaxPublicStructsRule.configure, checkNumberOfArguments]
    | bool b => simp [MaxPublicStructsRule.configure, checkNumberOfArguments]
  have hdo := configureOnceDo_first r [a] hfresh
  rw [hc] at hdo
  have h := applyTrace_configErr r file [a] _ (by rw [hdo])
  rw [hdo] at h
  refine ⟨hc, ⟨"invalid value passed as argument number to the \"", "\" rule", rfl⟩, h,
    by rw [Apply_eq r file _ _ h], ?_⟩
  intro t root hmem
  simp [thresholdFailure] at hmem

/-- Witness for C4: the argument `["abc"]`. -/
theorem apply_invalid_argument_type_witness :
    MaxPublicStructsRule.zero.configure [Arg.string "abc"] =
        (MaxPublicStructsRule.zero, some (GoError.errorsNew invalidValueMessage)) ∧
      (∃ before after : String,
        invalidValueMessage = before ++ MaxPublicStructsRule.zero.Name ++ after) ∧
      MaxPublicStructsRule.zero.applyTrace (fileOf ["A", "B"]) [Arg.string "abc"] =
        Except.ok ⟨{ MaxPublicStructsRule.zero with configureOnce := true }, none,
          [Failure.internalFailure (GoError.errorsNew invalidValueMessage)]⟩ ∧
      MaxPublicStructsRule.zero.Apply (fileOf ["A", "B"]) [Arg.string "abc"] =
        Except.ok ({ MaxPublicStructsRule.zero with configureOnce := true },
          [Failure.internalFailure (GoError.errorsNew invalidValueMessage)]) ∧
      ∀ (t : Int) (root : Node),
        thresholdFailure t root ∉
          [Failure.internalFailure (GoError.errorsNew invalidValueMessage)] :=
  apply_invalid_argument_type MaxPublicStructsRule.zero (Arg.string "abc")
    (fileOf ["A", "B"]) rfl rfl

/-- C5 fails as stated: the argument `int(3)` is an integer, yet `configure` rejects it with
the invalid-value error and the threshold of the instance stays 0 instead of becoming 3. -/
theorem configure_rejects_int_argument :
    (Arg.int 3).integerValue = some 3 ∧
      MaxPublicStructsRule.zero.configure [Arg.int 3] =
        (MaxPublicStructsRule.zero, some (GoError.errorsNew invalidValueMessage)) ∧
      (MaxPublicStructsRule.zero.configure [Arg.int 3]).1.max ≠ 3 :=
  ⟨rfl, rfl, by decide⟩

/-- C5 (amended): for every single-element argument list whose element has dynamic type
`int64` and value `k`, `configure` succeeds and the threshold becomes `k`; an integer carried
by the dynamic type `int` is rejected with the invalid-value error and the instance is left
unchanged. -/
theorem configure_int64_sets_threshold :
    (∀ (r : MaxPublicStructsRule) (k : Int),
        r.configure [Arg.int64 k] = ({ r with max := k }, none)) ∧
      ∀ (r : MaxPublicStructsRule) (k : Int),
        r.configure [Arg.int k] = (r, some (GoError.errorsNew invalidValueMessage)) := by
  constructor
  · intro r k
    simp [MaxPublicStructsRule.configure, checkNumberOfArguments]
  · intro r k
    simp [MaxPublicStructsRule.configure, checkNumberOfArguments]

/-- C6: on a first call with an empty argument list `configure` succeeds and sets the
threshold to 5; after that call and any further calls, whatever their arguments, the
instance still holds the threshold 5 (the trees being well formed, every call returns). -/
theorem configure_default_is_five (r : MaxPublicStructsRule) (file : File)
    (calls : List (File × Arguments))
    (hfresh : r.configureOnce = false)
    (hwf : ((file, ([] : Arguments)) :: calls).all (fun c => namesNonEmpty c.1.AST) = true) :
    r.configure [] = ({ r with max := 5 }, none) ∧
      ∃ out outs,
        r.Apply file [] = Except.ok ({ max := 5, configureOnce := true }, out) ∧
        applySeq r ((file, []) :: calls) =
          Except.ok ({ max := 5, configureOnce := true }, out :: outs) ∧
        outs.length = calls.length := by
  simp only [List.all_cons, Bool.and_eq_true] at hwf
  have hdo : r.configureOnceDo [] = ({ max := 5, configureOnce := true }, none) := by
    rw [configureOnceDo_first r _ hfresh]
    simp [MaxPublicStructsRule.configure, defaultMaxPublicStructs]
  obtain ⟨t, ht, hrule⟩ := applyTrace_returns r file [] hwf.1
  rw [hdo] at hrule
  obtain ⟨outs, houts, hlen⟩ :=
    applySeq_configured calls { max := 5, configureOnce := true } rfl hwf.2
  refine ⟨rfl, t.failures, outs, ?_, ?_, hlen⟩
  · rw [Apply_eq r file [] t ht, hrule]
  · rw [applySeq, Apply_eq r file [] t ht, hrule]
    simp only []
    rw [houts]

/-- Witness for C6: a first call without arguments, then calls with `[3]` and `["abc"]`. -/
theorem configure_default_is_five_witness :
    MaxPublicStructsRule.zero.configure [] =
        ({ MaxPublicStructsRule.zero with max := 5 }, none) ∧
      ∃ out outs,
        MaxPublicStructsRule.zero.Apply (fileOf ["A", "B"]) [] =
          Except.ok ({ max := 5, configureOnce := true }, out) ∧
        applySeq MaxPublicStructsRule.zero
            ((fileOf ["A", "B"], []) ::
              [(fileOf ["A", "B", "C", "D"], [Arg.int64 3]), (fileOf ["A"], [Arg.string "abc"])]) =
          Except.ok ({ max := 5, configureOnce := true }, out :: outs) ∧
        outs.length =
          [(fileOf ["A", "B", "C", "D"], [Arg.int64 3]),
            (fileOf ["A"], [Arg.string "abc"])].length :=
  configure_default_is_five MaxPublicStructsRule.zero (fileOf ["A", "B"])
    [(fileOf ["A", "B", "C", "D"], [Arg.int64 3]), (fileOf ["A"], [Arg.string "abc"])] rfl rfl

/-- C7 fails on the code: after a first call whose configuration fails (argument `["abc"]`),
a second call on the same instance, same file and same arguments returns the empty list,
not the internal-failure diagnostic of the first call: the error lives in a local variable
of the first call, and `Do` does not run `configure` again. -/
theorem later_apply_drops_configuration_error :
    applySeq MaxPublicStructsRule.zero
        [(fileOf ["A"], [Arg.string "abc"]), (fileOf ["A"], [Arg.string "abc"])] =
      Except.ok ({ max := 0, configureOnce := true },
        [[Failure.internalFailure (GoError.errorsNew invalidValueMessage)], []]) :=
  rfl

/-- C8: whatever the instance, the first `Apply` call of a sequence leaves a state, and with
it a threshold, that every later call keeps and uses: the state after the whole sequence is
that state; every later call returns exactly what that threshold prescribes for its file
(nothing below 1, else the one diagnostic citing that threshold when the count exceeds it),
whatever arguments it passes; a later call never runs `configure` again, and `Apply` on that
state does the same for any two argument lists; over the whole sequence `configure` runs
exactly once on a fresh instance (never on a configured one). The first call itself returns
the internal-failure diagnostic of its configuration error, or what its threshold prescribes.
The trees being well formed, every call returns. -/
theorem threshold_fixed_after_first_apply (r : MaxPublicStructsRule) (file : File)
    (arguments : Arguments) (calls : List (File × Arguments))
    (hwf : ((file, arguments) :: calls).all (fun c => namesNonEmpty c.1.AST) = true) :
    (∃ out,
        (out = match (r.configureOnceDo arguments).2 with
          | some err => [Failure.internalFailure err]
          | none => diagnosticsFor (r.configureOnceDo arguments).1.max file.AST) ∧
        r.Apply file arguments = Except.ok ((r.configureOnceDo arguments).1, out) ∧
        applySeq r ((file, arguments) :: calls) =
          Except.ok ((r.configureOnceDo arguments).1,
            out :: calls.map fun c =>
              diagnosticsFor (r.configureOnceDo arguments).1.max c.1.AST)) ∧
      (∀ (laterFile : File) (later : Arguments), namesNonEmpty laterFile.AST = true →
        (r.configureOnceDo arguments).1.Apply laterFile later =
          Except.ok ((r.configureOnceDo arguments).1,
            diagnosticsFor (r.configureOnceDo arguments).1.max laterFile.AST)) ∧
      (∀ (laterFile : File) (a b : Arguments),
        (r.configureOnceDo arguments).1.applyTrace laterFile a =
          (r.configureOnceDo arguments).1.applyTrace laterFile b) ∧
      (∀ later : Arguments,
        (r.configureOnceDo arguments).1.configureOnceDo later =
          ((r.configureOnceDo arguments).1, none)) ∧
      configureRuns r ((file, arguments) :: calls) = if r.configureOnce then 0 else 1 := by
  simp only [List.all_cons, Bool.and_eq_true] at hwf
  have hdone := configureOnceDo_marks r arguments
  have houts := applySeq_configured_outputs calls (r.configureOnceDo arguments).1 hdone hwf.2
  have hfirst : ∃ out,
      (out = match (r.configureOnceDo arguments).2 with
        | some err => [Failure.internalFailure err]
        | none => diagnosticsFor (r.configureOnceDo arguments).1.max file.AST) ∧
      r.Apply file arguments = Except.ok ((r.configureOnceDo arguments).1, out) := by
    cases hc : (r.configureOnceDo arguments).2 with
    | some err =>
      exact ⟨_, rfl, Apply_eq r file arguments _ (applyTrace_configErr r file arguments err hc)⟩
    | none =>
      refine ⟨_, rfl, ?_⟩
      by_cases hlt : (r.configureOnceDo arguments).1.max < 1
      · rw [Apply_eq r file arguments _ (applyTrace_disabled r file arguments hc hlt)]
        simp [diagnosticsFor, hlt]
      · rw [Apply_eq r file arguments _
          (applyTrace_enabled r file arguments hc (not_lt.mp hlt) hwf.1)]
        simp only [diagnosticsFor, hlt, if_false]
  obtain ⟨out, hout, happly⟩ := hfirst
  refine ⟨⟨out, hout, happly, ?_⟩, ?_, ?_, ?_, ?_⟩
  · rw [applySeq, happly]
    simp only []
    rw [houts]
  · intro laterFile later hl
    exact Apply_configured _ laterFile later hdone hl
  · intro laterFile a b
    exact applyTrace_configured_ignores_arguments _ laterFile a b hdone
  · intro later
    exact configureOnceDo_done _ later hdone
  · rw [configureRuns, configureRuns_configured calls _ hdone]
    simp

/-- Witness for C8: a first call without arguments, then two calls that pass `[3]`, on a file
of four and on a file of six public structs: the threshold stays 5, so the first of them
reports nothing (4 is over 3 but not over 5) and the second cites 5. -/
theorem threshold_fixed_after_first_apply_witness :
    (MaxPublicStructsRule.zero.configureOnceDo []).1 = { max := 5, configureOnce := true } ∧
    applySeq MaxPublicStructsRule.zero
        ((fileOf ["A"], []) ::
          [(fileOf ["A", "B", "C", "D"], [Arg.int64 3]),
           (fileOf ["A", "B", "C", "D", "E", "F"], [Arg.int64 3])]) =
      Except.ok ({ max := 5, configureOnce := true },
        [[], [],
          [Failure.mk "you have exceeded the maximum number (5) of public struct declarations"
            1 (fileOf ["A", "B", "C", "D", "E", "F"]).AST "style"]]) ∧
    ((∃ out,
        (out = match (MaxPublicStructsRule.zero.configureOnceDo []).2 with
          | some err => [Failure.internalFailure err]
          | none =>
            diagnosticsFor (MaxPublicStructsRule.zero.configureOnceDo []).1.max
              (fileOf ["A"]).AST) ∧
        MaxPublicStructsRule.zero.Apply (fileOf ["A"]) [] =
          Except.ok ((MaxPublicStructsRule.zero.configureOnceDo []).1, out) ∧
        applySeq MaxPublicStructsRule.zero
            ((fileOf ["A"], []) ::
              [(fileOf ["A", "B", "C", "D"], [Arg.int64 3]),
               (fileOf ["A", "B", "C", "D", "E", "F"], [Arg.int64 3])]) =
          Except.ok ((MaxPublicStructsRule.zero.configureOnceDo []).1,
            out ::
              [(fileOf ["A", "B", "C", "D"], [Arg.int64 3]),
               (fileOf ["A", "B", "C", "D", "E", "F"], [Arg.int64 3])].map fun c =>
                diagnosticsFor (MaxPublicStructsRule.zero.configureOnceDo []).1.max c.1.AST)) ∧
      (∀ (laterFile : File) (later : Arguments), namesNonEmpty laterFile.AST = true →
        (MaxPublicStructsRule.zero.configureOnceDo []).1.Apply laterFile later =
          Except.ok ((MaxPublicStructsRule.zero.configureOnceDo []).1,
            diagnosticsFor (MaxPublicStructsRule.zero.configureOnceDo []).1.max
              laterFile.AST)) ∧
      (∀ (laterFile : File) (a b : Arguments),
        (MaxPublicStructsRule.zero.configureOnceDo []).1.applyTrace laterFile a =
          (MaxPublicStructsRule.zero.configureOnceDo []).1.applyTrace laterFile b) ∧
      (∀ later : Arguments,
        (MaxPublicStructsRule.zero.configureOnceDo []).1.configureOnceDo later =
          ((MaxPublicStructsRule.zero.configureOnceDo []).1, none)) ∧
      configureRuns MaxPublicStructsRule.zero
          ((fileOf ["A"], []) ::
            [(fileOf ["A", "B", "C", "D"], [Arg.int64 3]),
             (fileOf ["A", "B", "C", "D", "E", "F"], [Arg.int64 3])]) =
        if MaxPublicStructsRule.zero.configureOnce then 0 else 1) :=
  ⟨rfl, rfl,
    threshold_fixed_after_first_apply MaxPublicStructsRule.zero (fileOf ["A"]) []
      [(fileOf ["A", "B", "C", "D"], [Arg.int64 3]),
       (fileOf ["A", "B", "C", "D", "E", "F"], [Arg.int64 3])] rfl⟩

/-- C9: when a call of `Apply` meets no configuration error, a second call on the same
unmodified tree (whatever its arguments) returns exactly what the first returned: the same
instance state, the same walker (so the same count) and the same diagnostics; when the walk
runs, its count is the number of publicly classified declarations of the tree, counted from
zero in each call. -/
theorem apply_twice_same_result (r : MaxPublicStructsRule) (file : File)
    (first second : Arguments)
    (hcfg : (r.configureOnceDo first).2 = none)
    (hwf : namesNonEmpty file.AST = true) :
    ∃ t : ApplyTrace,
      r.applyTrace file first = Except.ok t ∧
      t.rule.applyTrace file second = Except.ok t ∧
      r.Apply file first = Except.ok (t.rule, t.failures) ∧
      t.rule.Apply file second = Except.ok (t.rule, t.failures) ∧
      (t.walker = none ∨
        t.walker = some { current := (countPublic file.AST : Int), fileAst := file.AST }) := by
  have hdone := configureOnceDo_marks r first
  have hd := configureOnceDo_done (r.configureOnceDo first).1 second hdone
  by_cases hlt : (r.configureOnceDo first).1.max < 1
  · have h1 := applyTrace_disabled r file first hcfg hlt
    have h2 := applyTrace_disabled (r.configureOnceDo first).1 file second
      (by rw [hd]) (by rw [hd]; exact hlt)
    rw [hd] at h2
    exact ⟨_, h1, h2, Apply_eq _ _ _ _ h1, Apply_eq _ _ _ _ h2, Or.inl rfl⟩
  · have h1 := applyTrace_enabled r file first hcfg (not_lt.mp hlt) hwf
    have h2 := applyTrace_enabled (r.configureOnceDo first).1 file second
      (by rw [hd]) (by rw [hd]; exact not_lt.mp hlt) hwf
    rw [hd] at h2
    exact ⟨_, h1, h2, Apply_eq _ _ _ _ h1, Apply_eq _ _ _ _ h2, Or.inr rfl⟩

/-- Witness for C9: configuration `[3]` and a file with four public structs, applied twice. -/
theorem apply_twice_same_result_witness :
    ∃ t : ApplyTrace,
      MaxPublicStructsRule.zero.applyTrace (fileOf ["A", "B", "C", "D"]) [Arg.int64 3] =
        Except.ok t ∧
      t.rule.applyTrace (fileOf ["A", "B", "C", "D"]) [Arg.int64 3] = Except.ok t ∧
      MaxPublicStructsRule.zero.Apply (fileOf ["A", "B", "C", "D"]) [Arg.int64 3] =
        Except.ok (t.rule, t.failures) ∧
      t.rule.Apply (fileOf ["A", "B", "C", "D"]) [Arg.int64 3] =
        Except.ok (t.rule, t.failures) ∧
      (t.walker = none ∨
        t.walker = some { current := (countPublic (fileOf ["A", "B", "C", "D"]).AST : Int),
                          fileAst := (fileOf ["A", "B", "C", "D"]).AST }) :=
  apply_twice_same_result MaxPublicStructsRule.zero (fileOf ["A", "B", "C", "D"])
    [Arg.int64 3] [Arg.int64 3] rfl rfl

/-- C10 fails on the code: in the file `type _x struct{}` the only type declaration has a
name that begins with an underscore, which is not an upper-case letter, yet the walk counts
it (upper-casing `_` leaves it unchanged), and with threshold 1 a file of two such
declarations gets the diagnostic; a lower-case name is not counted. -/
theorem underscore_name_is_counted :
    goBytes "_x" = [0x5F, 0x78] ∧
      Walk { current := 0, fileAst := (fileOf ["_x"]).AST } (fileOf ["_x"]).AST =
        Except.ok { current := 1, fileAst := (fileOf ["_x"]).AST } ∧
      Walk { current := 0, fileAst := (fileOf ["x"]).AST } (fileOf ["x"]).AST =
        Except.ok { current := 0, fileAst := (fileOf ["x"]).AST } ∧
      MaxPublicStructsRule.zero.Apply (fileOf ["_x", "_y"]) [Arg.int64 1] =
        Except.ok ({ max := 1, configureOnce := true },
          [thresholdFailure 1 (fileOf ["_x", "_y"]).AST]) :=
  ⟨rfl, rfl, rfl, rfl⟩

/-! ## What is counted, and the shape of the result -/

/-- C11 fails on the code: the file `type A int; type B interface{}` declares no struct at
all, yet the walk counts both declarations and, with threshold 1, `Apply` reports that the
maximum number of public struct declarations is exceeded. `Visit` never looks at the type a
`TypeSpec` defines. -/
theorem non_struct_types_are_counted :
    Walk { current := 0,
           fileAst := (fileOfDecls
             [Node.other "GenDecl" [typeDecl "A" (Node.other "Ident" [])],
              Node.other "GenDecl"
                [typeDecl "B" (Node.other "InterfaceType" [Node.other "FieldList" []])]]).AST }
        (fileOfDecls
          [Node.other "GenDecl" [typeDecl "A" (Node.other "Ident" [])],
           Node.other "GenDecl"
             [typeDecl "B" (Node.other "InterfaceType" [Node.other "FieldList" []])]]).AST =
      Except.ok { current := 2,
                  fileAst := (fileOfDecls
                    [Node.other "GenDecl" [typeDecl "A" (Node.other "Ident" [])],
                     Node.other "GenDecl"
                       [typeDecl "B"
                         (Node.other "InterfaceType" [Node.other "FieldList" []])]]).AST } ∧
    MaxPublicStructsRule.zero.Apply
        (fileOfDecls
          [Node.other "GenDecl" [typeDecl "A" (Node.other "Ident" [])],
           Node.other "GenDecl"
             [typeDecl "B" (Node.other "InterfaceType" [Node.other "FieldList" []])]])
        [Arg.int64 1] =
      Except.ok ({ max := 1, configureOnce := true },
        [Failure.mk "you have exceeded the maximum number (1) of public struct declarations" 1
          (fileOfDecls
            [Node.other "GenDecl" [typeDecl "A" (Node.other "Ident" [])],
             Node.other "GenDecl"
               [typeDecl "B" (Node.other "InterfaceType" [Node.other "FieldList" []])]]).AST
          "style"]) :=
  ⟨rfl, rfl⟩

/-- C12 fails as stated: on the file `type A struct{}` followed by a type declaration with an
empty name, with the default threshold, `Apply` does not return diagnostics: indexing the
empty name panics. -/
theorem empty_name_panics :
    namesNonEmpty (fileOf ["A", ""]).AST = false ∧
      MaxPublicStructsRule.zero.Apply (fileOf ["A", ""]) [] =
        Except.error (Panic.indexOutOfRange 0 0) :=
  ⟨rfl, rfl⟩

/-- C12 (amended): on every tree that contains a type declaration with an empty name,
whenever `Apply` reaches the walk (no configuration error on this call and a threshold of
at least 1) the walk panics with index out of range at that declaration, and `Apply`
returns no diagnostics. -/
theorem apply_panics_on_empty_name (r : MaxPublicStructsRule) (file : File)
    (arguments : Arguments)
    (hcfg : (r.configureOnceDo arguments).2 = none)
    (hge : 1 ≤ (r.configureOnceDo arguments).1.max)
    (hbad : namesNonEmpty file.AST = false) :
    Walk { current := 0, fileAst := file.AST } file.AST =
        Except.error (Panic.indexOutOfRange 0 0) ∧
      r.applyTrace file arguments = Except.error (Panic.indexOutOfRange 0 0) ∧
      r.Apply file arguments = Except.error (Panic.indexOutOfRange 0 0) := by
  have hw := Walk_fault file.AST { current := 0, fileAst := file.AST } hbad
  have hnlt : ¬ (r.configureOnceDo arguments).1.max < 1 := not_lt.mpr hge
  have ht : r.applyTrace file arguments = Except.error (Panic.indexOutOfRange 0 0) := by
    simp only [MaxPublicStructsRule.applyTrace, hcfg, hnlt, if_false, hw]
  exact ⟨hw, ht, by simp [MaxPublicStructsRule.Apply, ht, Except.map]⟩

/-- Witness for C12 (amended): threshold `[2]`, the empty name inside a function body. -/
theorem apply_panics_on_empty_name_witness :
    Walk { current := 0, fileAst := (fileOfDecls [funcWithLocalStruct ""]).AST }
          (fileOfDecls [funcWithLocalStruct ""]).AST =
        Except.error (Panic.indexOutOfRange 0 0) ∧
      MaxPublicStructsRule.zero.applyTrace (fileOfDecls [funcWithLocalStruct ""])
          [Arg.int64 2] =
        Except.error (Panic.indexOutOfRange 0 0) ∧
      MaxPublicStructsRule.zero.Apply (fileOfDecls [funcWithLocalStruct ""]) [Arg.int64 2] =
        Except.error (Panic.indexOutOfRange 0 0) :=
  apply_panics_on_empty_name MaxPublicStructsRule.zero (fileOfDecls [funcWithLocalStruct ""])
    [Arg.int64 2] rfl (by decide) rfl

/-- C13: every diagnostic built from the struct literal that `Apply` returns is the only
diagnostic returned; the threshold `t` of the instance is then at least 1, the message is
"you have exceeded the maximum number (t) of public struct declarations" with `t` in
decimal, the confidence is 1, the category is "style" and the node is the root of the file
passed to `Apply`. -/
theorem threshold_diagnostic_shape (r : MaxPublicStructsRule) (file : File)
    (arguments : Arguments) (tr : ApplyTrace) (msg : String) (c : Rat) (n : Node)
    (cat : String)
    (h : r.applyTrace file arguments = Except.ok tr)
    (hmem : Failure.mk msg c n cat ∈ tr.failures) :
    1 ≤ tr.rule.max ∧
      msg = "you have exceeded the maximum number (" ++ Nat.repr tr.rule.max.toNat ++
        ") of public struct declarations" ∧
      c = 1 ∧ n = file.AST ∧ cat = "style" ∧
      tr.failures = [Failure.mk msg c n cat] := by
  obtain ⟨_, hcases⟩ := applyTrace_failures r file arguments tr h
  rcases hcases with ⟨err, _, hf⟩ | hf | ⟨hge, hf⟩
  · rw [hf] at hmem
    simp at hmem
  · rw [hf] at hmem
    simp at hmem
  · rw [hf] at hmem
    simp only [thresholdFailure, List.mem_singleton, Failure.mk.injEq] at hmem
    obtain ⟨hm, hc, hn, hcat⟩ := hmem
    refine ⟨hge, ?_, hc, hn, hcat, ?_⟩
    · rw [hm, exceededMessage_decimal _ hge]
    · rw [hf, hm, hc, hn, hcat, thresholdFailure]

/-- Witness for C13: the default threshold and six public structs; the message cites 5. -/
theorem threshold_diagnostic_shape_witness :
    MaxPublicStructsRule.zero.applyTrace (fileOf ["A", "B", "C", "D", "E", "F"]) [] =
        Except.ok ⟨{ max := 5, configureOnce := true },
          some { current := 6, fileAst := (fileOf ["A", "B", "C", "D", "E", "F"]).AST },
          [Failure.mk "you have exceeded the maximum number (5) of public struct declarations"
            1 (fileOf ["A", "B", "C", "D", "E", "F"]).AST "style"]⟩ ∧
      (1 : Int) ≤ 5 ∧
      "you have exceeded the maximum number (5) of public struct declarations" =
        "you have exceeded the maximum number (" ++ Nat.repr (5 : Int).toNat ++
          ") of public struct declarations" ∧
      (1 : Rat) = 1 ∧
      (fileOf ["A", "B", "C", "D", "E", "F"]).AST = (fileOf ["A", "B", "C", "D", "E", "F"]).AST ∧
      "style" = "style" ∧
      [Failure.mk "you have exceeded the maximum number (5) of public struct declarations"
          1 (fileOf ["A", "B", "C", "D", "E", "F"]).AST "style"] =
        [Failure.mk "you have exceeded the maximum number (5) of public struct declarations"
          1 (fileOf ["A", "B", "C", "D", "E", "F"]).AST "style"] :=
  ⟨rfl,
    threshold_diagnostic_shape MaxPublicStructsRule.zero (fileOf ["A", "B", "C", "D", "E", "F"])
      []
      ⟨{ max := 5, configureOnce := true },
        some { current := 6, fileAst := (fileOf ["A", "B", "C", "D", "E", "F"]).AST },
        [Failure.mk "you have exceeded the maximum number (5) of public struct declarations"
          1 (fileOf ["A", "B", "C", "D", "E", "F"]).AST "style"]⟩
      "you have exceeded the maximum number (5) of public struct declarations" 1
      (fileOf ["A", "B", "C", "D", "E", "F"]).AST "style" rfl (List.Mem.head _)⟩

/-- C14: whenever `Apply` returns, on any instance state, argument list and tree, the
returned list has at most one diagnostic: the internal-failure diagnostic of a
configuration error, the one threshold diagnostic, or nothing. -/
theorem apply_at_most_one_diagnostic (r : MaxPublicStructsRule) (file : File)
    (arguments : Arguments) (r1 : MaxPublicStructsRule) (out : List Failure)
    (h : r.Apply file arguments = Except.ok (r1, out)) : out.length ≤ 1 := by
  obtain ⟨tr, ht, _, hout⟩ := Apply_ok_iff r file arguments r1 out h
  obtain ⟨_, hcases⟩ := applyTrace_failures r file arguments tr ht
  rw [← hout]
  rcases hcases with ⟨err, _, hf⟩ | hf | ⟨_, hf⟩ <;> simp [hf]

/-- Witness for C14: threshold `[1]` and six public structs, five over the threshold. -/
theorem apply_at_most_one_diagnostic_witness :
    MaxPublicStructsRule.zero.Apply (fileOf ["A", "B", "C", "D", "E", "F"]) [Arg.int64 1] =
        Except.ok ({ max := 1, configureOnce := true },
          [thresholdFailure 1 (fileOf ["A", "B", "C", "D", "E", "F"]).AST]) ∧
      [thresholdFailure 1 (fileOf ["A", "B", "C", "D", "E", "F"]).AST].length ≤ 1 :=
  ⟨rfl,
    apply_at_most_one_diagnostic MaxPublicStructsRule.zero
      (fileOf ["A", "B", "C", "D", "E", "F"]) [Arg.int64 1]
      { max := 1, configureOnce := true }
      [thresholdFailure 1 (fileOf ["A", "B", "C", "D", "E", "F"]).AST] rfl⟩

/-- C15: `Name` returns "max-public-structs" on every instance state: unconfigured,
configured with any threshold, or left by a failed configuration. -/
theorem name_is_constant :
    ∀ r : MaxPublicStructsRule, r.Name = "max-public-structs" :=
  fun _ => rfl

/-- C16 fails on the code: the name `été` begins with `é` (U+00E9), whose upper-case form is
`É` (U+00C9), so by the claim it is not counted; `Visit` classifies its first byte 0xC3 and
counts it. The name `世` (first byte 0xE4) has no upper-case form other than itself, and
`Visit` does not count it. -/
theorem multibyte_name_classified_by_first_byte :
    goBytes "été" = [0xC3, 0xA9, 0x74, 0xC3, 0xA9] ∧
      Char.toNat (String.get "été" 0) = 0xE9 ∧
      toUpperLatin1 (UInt8.ofNat 0xE9) = 0xC9 ∧
      Walk { current := 0, fileAst := (fileOf ["été"]).AST } (fileOf ["été"]).AST =
        Except.ok { current := 1, fileAst := (fileOf ["été"]).AST } ∧
      goBytes "世" = [0xE4, 0xB8, 0x96] ∧
      Walk { current := 0, fileAst := (fileOf ["世"]).AST } (fileOf ["世"]).AST =
        Except.ok { current := 0, fileAst := (fileOf ["世"]).AST } :=
  ⟨rfl, rfl, rfl, rfl, rfl, rfl⟩

/-- C17: `Visit` returns its visitor for every node, never nil, and leaves the count as it
is on every node that is not a type declaration; on a tree whose type declarations all have
a name the walk returns, and it has added to the count the number of publicly classified
type declarations among all nodes of the tree, at every depth. -/
theorem walk_counts_every_depth (tree : Node) (v : lintMaxPublicStructs)
    (hwf : namesNonEmpty tree = true) :
    (∀ (w : lintMaxPublicStructs) (n : Option Node) (w1 : lintMaxPublicStructs) (b : Bool),
        w.Visit n = Except.ok (w1, b) → b = true) ∧
      (∀ (w : lintMaxPublicStructs) (kind : String) (cs : List Node),
        w.Visit (some (Node.other kind cs)) = Except.ok (w, true)) ∧
      Walk v tree =
        Except.ok { v with
          current := v.current + (((allNodes tree).filter isPublicTypeSpec).length : Int) } := by
  refine ⟨Visit_returns_visitor, Visit_other, ?_⟩
  rw [Walk_eq tree v hwf, countPublic_eq_filter]

/-- Witness for C17: a file with a public struct declared inside a function body and one
declared at file level: both are counted. -/
theorem walk_counts_every_depth_witness :
    ((allNodes (fileOfDecls
        [funcWithLocalStruct "Local", Node.other "GenDecl" [structDecl "Top"]]).AST).filter
      isPublicTypeSpec).length = 2 ∧
    ((∀ (w : lintMaxPublicStructs) (n : Option Node) (w1 : lintMaxPublicStructs) (b : Bool),
        w.Visit n = Except.ok (w1, b) → b = true) ∧
      (∀ (w : lintMaxPublicStructs) (kind : String) (cs : List Node),
        w.Visit (some (Node.other kind cs)) = Except.ok (w, true)) ∧
      Walk { current := 0, fileAst := Node.other "File" [] }
          (fileOfDecls
            [funcWithLocalStruct "Local", Node.other "GenDecl" [structDecl "Top"]]).AST =
        Except.ok { ({ current := 0, fileAst := Node.other "File" [] } : lintMaxPublicStructs)
          with
          current := (0 : Int) + (((allNodes (fileOfDecls
            [funcWithLocalStruct "Local",
              Node.other "GenDecl" [structDecl "Top"]]).AST).filter
                isPublicTypeSpec).length : Int) }) :=
  ⟨rfl,
    walk_counts_every_depth
      (fileOfDecls [funcWithLocalStruct "Local", Node.other "GenDecl" [structDecl "Top"]]).AST
      { current := 0, fileAst := Node.other "File" [] } rfl⟩

/-- C18 fails as stated: the argument list `[-3]` configures successfully and leaves the
negative threshold -3 in the instance. -/
theorem configure_accepts_negative_threshold :
    MaxPublicStructsRule.zero.configure [Arg.int64 (-3)] =
        ({ max := -3, configureOnce := false }, none) ∧
      (MaxPublicStructsRule.zero.configure [Arg.int64 (-3)]).1.max < 0 :=
  ⟨rfl, by decide⟩

/-- C18 (amended): for every argument list, configuration either fails or resolves the
threshold to 5 (empty list) or to the value of the `int64` first argument as it is, whatever
its sign. -/
theorem configure_success_threshold (r : MaxPublicStructsRule) (arguments : Arguments)
    (h : (r.configure arguments).2 = none) :
    (arguments = [] ∧ (r.configure arguments).1 = { r with max := 5 }) ∨
      ∃ (k : Int) (rest : Arguments),
        arguments = Arg.int64 k :: rest ∧ (r.configure arguments).1 = { r with max := k } := by
  cases arguments with
  | nil => exact Or.inl ⟨rfl, rfl⟩
  | cons a0 rest =>
    right
    cases hck : checkNumberOfArguments 1 (a0 :: rest) r.Name with
    | some e => simp [MaxPublicStructsRule.configure, hck] at h
    | none =>
      cases a0 with
      | int64 v => exact ⟨v, rest, rfl, by simp [MaxPublicStructsRule.configure, hck]⟩
      | int v => simp [MaxPublicStructsRule.configure, hck] at h
      | string v => simp [MaxPublicStructsRule.configure, hck] at h
      | bool v => simp [MaxPublicStructsRule.configure, hck] at h

/-- Witness for C18 (amended): the argument list `[-3]`. -/
theorem configure_success_threshold_witness :
    (MaxPublicStructsRule.zero.configure [Arg.int64 (-3)]).2 = none ∧
      ((([Arg.int64 (-3)] : Arguments) = [] ∧
          (MaxPublicStructsRule.zero.configure [Arg.int64 (-3)]).1 =
            { MaxPublicStructsRule.zero with max := 5 }) ∨
        ∃ (k : Int) (rest : Arguments),
          ([Arg.int64 (-3)] : Arguments) = Arg.int64 k :: rest ∧
            (MaxPublicStructsRule.zero.configure [Arg.int64 (-3)]).1 =
              { MaxPublicStructsRule.zero with max := k }) :=
  ⟨rfl, configure_success_threshold MaxPublicStructsRule.zero [Arg.int64 (-3)] rfl⟩

/-- C19: when the first `Apply` call on a new instance (threshold at its zero value) fails
configuration, `configure` has left the threshold at zero, the call returns the
internal-failure diagnostic of the error, and every later call on the instance, for every
tree and every argument list, skips `configure` and returns the empty list. -/
theorem failed_configuration_disables_rule (r : MaxPublicStructsRule) (file : File)
    (arguments : Arguments) (err : GoError)
    (hfresh : r.configureOnce = false) (hzero : r.max = 0)
    (hfail : (r.configure arguments).2 = some err) :
    (r.configure arguments).1 = r ∧
      r.Apply file arguments =
        Except.ok ({ max := 0, configureOnce := true }, [Failure.internalFailure err]) ∧
      ∀ (later : File) (laterArguments : Arguments),
        ({ max := 0, configureOnce := true } : MaxPublicStructsRule).configureOnceDo
            laterArguments = ({ max := 0, configureOnce := true }, none) ∧
          ({ max := 0, configureOnce := true } : MaxPublicStructsRule).Apply later
            laterArguments = Except.ok ({ max := 0, configureOnce := true }, []) := by
  have hun := configure_error_unchanged r arguments err hfail
  have hdo : r.configureOnceDo arguments =
      ({ max := 0, configureOnce := true }, some err) := by
    rw [configureOnceDo_first r arguments hfresh, hun, hfail]
    simp only [hzero]
  refine ⟨hun, ?_, ?_⟩
  · have h := applyTrace_configErr r file arguments err (by rw [hdo])
    rw [Apply_eq r file arguments _ h, hdo]
  · intro later laterArguments
    have hd := configureOnceDo_done { max := 0, configureOnce := true } laterArguments rfl
    have h := applyTrace_disabled { max := 0, configureOnce := true } later laterArguments
      (by rw [hd]) (by rw [hd]; decide)
    exact ⟨hd, by rw [Apply_eq _ later laterArguments _ h, hd]⟩

/-- Witness for C19: a first call with `["abc"]`. -/
theorem failed_configuration_disables_rule_witness :
    (MaxPublicStructsRule.zero.configure [Arg.string "abc"]).1 = MaxPublicStructsRule.zero ∧
      MaxPublicStructsRule.zero.Apply (fileOf ["A", "B"]) [Arg.string "abc"] =
        Except.ok ({ max := 0, configureOnce := true },
          [Failure.internalFailure (GoError.errorsNew invalidValueMessage)]) ∧
      ∀ (later : File) (laterArguments : Arguments),
        ({ max := 0, configureOnce := true } : MaxPublicStructsRule).configureOnceDo
            laterArguments = ({ max := 0, configureOnce := true }, none) ∧
          ({ max := 0, configureOnce := true } : MaxPublicStructsRule).Apply later
            laterArguments = Except.ok ({ max := 0, configureOnce := true }, []) :=
  failed_configuration_disables_rule MaxPublicStructsRule.zero (fileOf ["A", "B"])
    [Arg.string "abc"] (GoError.errorsNew invalidValueMessage) rfl rfl rfl

end MaxPublicStructs
